import Mathlib

/-!
Generador de paleta de colores: embedding of `js/index.js`.

The script is embedded function by function.  The ambient random source
(`Math.random`) is an explicit stream of outcomes threaded through the
generators, Numbers are the rationals they denote and their products are
rounded to binary64, the DOM nodes the script creates are records of the values the
script assigns, and the toast with its `setTimeout` callbacks is an explicit
state advanced over a millisecond clock.
-/

namespace Paleta

/-! ## JavaScript values and the random source -/

/-- The JavaScript values the script can hold in `format`, `color` and `code`. -/
inductive JSValue where
  | undefined : JSValue
  | null : JSValue
  | boolean (b : Bool) : JSValue
  | number (n : Int) : JSValue
  | string (s : String) : JSValue
  deriving DecidableEq, Repr

/-- The conversion a template literal or `+=` applies to a value. -/
def JSValue.toStr : JSValue → String
  | .undefined => "undefined"
  | .null => "null"
  | .boolean true => "true"
  | .boolean false => "false"
  | .number n => toString n
  | .string s => s

/-- The ambient random source: `draws k` is the outcome of the `k`-th call of
`Math.random()` and `used` counts the calls made so far. -/
structure RandomSource where
  draws : Nat → ℚ
  used : Nat

/-- Every outcome of `Math.random()` lies in `[0, 1)`. -/
def RandomSource.InUnit (src : RandomSource) : Prop :=
  ∀ k, 0 ≤ src.draws k ∧ src.draws k < 1

/-- One call of `Math.random()`: the next outcome and the advanced source.
Outcomes are rationals (every double is one). -/
def mathRandom (src : RandomSource) : ℚ × RandomSource :=
  (src.draws src.used, { src with used := src.used + 1 })

/-- The function `Math.floor`. -/
def mathFloor (x : ℚ) : Int := ⌊x⌋

/-! ## Binary64 arithmetic -/

/-- The exponent of the binade a binary64 value of magnitude `|x|` lies in:
`floor(log2 |x|)`, and `-1022` throughout the subnormal range. -/
def binadeExponent (x : ℚ) : Int := max (Int.log 2 |x|) (-1022)

/-- The spacing of the binary64 values around `x` (53 significant bits). -/
def unitLastPlace (x : ℚ) : ℚ := (2 : ℚ) ^ (binadeExponent x - 52)

/-- Rounding to the nearest integer, a tie going to the even one. -/
def roundHalfEven (q : ℚ) : Int :=
  if q - ⌊q⌋ < 1 / 2 then ⌊q⌋
  else if 1 / 2 < q - ⌊q⌋ then ⌊q⌋ + 1
  else if ⌊q⌋ % 2 = 0 then ⌊q⌋ else ⌊q⌋ + 1

/-- The binary64 value nearest to `x` (round to nearest, ties to even), for
magnitudes below the overflow threshold `2 ^ 1024`. -/
def roundBinary64 (x : ℚ) : ℚ := (roundHalfEven (x / unitLastPlace x) : ℚ) * unitLastPlace x

/-- The product `x * y` of two Numbers: the exact product rounded to binary64. -/
def mulBinary64 (x y : ℚ) : ℚ := roundBinary64 (x * y)

/-- The rational `x` is a finite binary64 value: it lies below the overflow
threshold and rounding leaves it as it is. -/
def isBinary64 (x : ℚ) : Bool := decide (|x| < 2 ^ 1024 ∧ roundBinary64 x = x)

/-- Every outcome of `Math.random()` is a binary64 value. -/
def RandomSource.Binary64 (src : RandomSource) : Prop :=
  ∀ k, isBinary64 (src.draws k) = true

/-- Indexing a string, `s[k]`: the character at `k`, or `undefined` outside the string. -/
def charAt (s : String) (k : Int) : JSValue :=
  if k < 0 then .undefined
  else match s.data.get? k.toNat with
    | some c => .string (String.singleton c)
    | none => .undefined

/-! ## Color generators -/

/-- The constant `letters` of `generateRandomHEX`. -/
def letters : String := "0123456789ABCDEF"

/-- The body of the loop of `generateRandomHEX`:
`color += letters[Math.floor(Math.random() * 16)]`.  The product by 16 only
shifts the exponent of a double, so it is the exact product. -/
def hexStep (st : String × RandomSource) : String × RandomSource :=
  let (r, src) := mathRandom st.2
  (st.1 ++ (charAt letters (mathFloor (r * 16))).toStr, src)

/-- A loop `for (let i = 0; i < n; i++) body` whose body does not read `i`. -/
def forLoop {σ : Type} (n : Nat) (body : σ → σ) (s : σ) : σ :=
  match n with
  | 0 => s
  | k + 1 => forLoop k body (body s)

/-- The function `generateRandomHEX()`: the string built and the advanced source. -/
def generateRandomHEX (src : RandomSource) : String × RandomSource :=
  forLoop 6 hexStep ("#", src)

/-- The function `generateRandomHSL()`: the string built and the advanced source.
The products by 360 and by 100 are binary64 products, rounded to nearest. -/
def generateRandomHSL (src : RandomSource) : String × RandomSource :=
  let (r1, src1) := mathRandom src
  let h := mathFloor (mulBinary64 r1 360)
  let (r2, src2) := mathRandom src1
  let s := mathFloor (mulBinary64 r2 100)
  let (r3, src3) := mathRandom src2
  let l := mathFloor (mulBinary64 r3 100)
  ("hsl(" ++ toString h ++ ", " ++ toString s ++ "%, " ++ toString l ++ "%)", src3)

/-! ## Palette builder -/

/-- An object literal with the two properties `color` and `code`. -/
structure ColorEntry where
  color : JSValue
  code : JSValue
  deriving DecidableEq, Repr

/-- The body of the loop of `generatePalette`: `let color, code;`, the two
strict comparisons of `format`, and `palette.push`. -/
def paletteStep (format : JSValue) (st : List ColorEntry × RandomSource) :
    List ColorEntry × RandomSource :=
  let color0 := JSValue.undefined
  let code0 := JSValue.undefined
  if format = .string "hex" then
    let (c, src) := generateRandomHEX st.2
    let color := JSValue.string c
    let code := color
    (st.1 ++ [{ color := color, code := code }], src)
  else if format = .string "hsl" then
    let (c, src) := generateRandomHSL st.2
    let color := JSValue.string c
    let code := color
    (st.1 ++ [{ color := color, code := code }], src)
  else
    (st.1 ++ [{ color := color0, code := code0 }], st.2)

/-- The function `generatePalette(size, format)`: the palette and the advanced source. -/
def generatePalette (size : Nat) (format : JSValue) (src : RandomSource) :
    List ColorEntry × RandomSource :=
  forLoop size (paletteStep format) ([], src)

/-! ## DOM nodes and the renderer -/

/-- The two closures `displayPalette` registers on a card; each captures its `item`. -/
inductive Listener where
  | onClick (item : ColorEntry) : Listener
  | onKeydown (item : ColorEntry) : Listener
  deriving DecidableEq, Repr

/-- An element created by the script, recording what the script assigned to it:
tag name, `className`, attributes, `style.backgroundColor`, `textContent`,
children and registered listeners (each with its event type). -/
inductive Element where
  | mk (tagName : String) (className : String) (attributes : List (String × String))
      (backgroundColor : Option JSValue) (textContent : Option JSValue)
      (children : List Element) (listeners : List (String × Listener)) : Element

namespace Element

/-- The tag name given to `createElement`. -/
def tagName : Element → String
  | mk t _ _ _ _ _ _ => t

/-- The value assigned to `className`. -/
def className : Element → String
  | mk _ c _ _ _ _ _ => c

/-- The attributes set so far, in order. -/
def attributes : Element → List (String × String)
  | mk _ _ a _ _ _ _ => a

/-- The value assigned to `style.backgroundColor`, if any. -/
def backgroundColor : Element → Option JSValue
  | mk _ _ _ b _ _ _ => b

/-- The value assigned to `textContent`, if any. -/
def textContent : Element → Option JSValue
  | mk _ _ _ _ x _ _ => x

/-- The children appended so far, in order. -/
def children : Element → List Element
  | mk _ _ _ _ _ ch _ => ch

/-- The listeners registered so far, in order. -/
def listeners : Element → List (String × Listener)
  | mk _ _ _ _ _ _ l => l

/-- The call `document.createElement(tag)`. -/
def create (tag : String) : Element := mk tag "" [] none none [] []

/-- The assignment `el.className = c`. -/
def setClassName (el : Element) (c : String) : Element :=
  mk el.tagName c el.attributes el.backgroundColor el.textContent el.children el.listeners

/-- The call `el.setAttribute(name, value)`: the value of an attribute already
present is replaced in place, a new attribute is added last. -/
def setAttribute (el : Element) (name value : String) : Element :=
  mk el.tagName el.className
    (if el.attributes.any (fun p => p.1 = name) then
      el.attributes.map (fun p => if p.1 = name then (name, value) else p)
    else el.attributes ++ [(name, value)])
    el.backgroundColor el.textContent el.children el.listeners

/-- The call `el.getAttribute(name)`. -/
def getAttribute (el : Element) (name : String) : Option String :=
  (el.attributes.find? (fun p => p.1 = name)).map Prod.snd

/-- The assignment `el.style.backgroundColor = v`. -/
def setBackgroundColor (el : Element) (v : JSValue) : Element :=
  mk el.tagName el.className el.attributes (some v) el.textContent el.children el.listeners

/-- The assignment `el.textContent = v`. -/
def setTextContent (el : Element) (v : JSValue) : Element :=
  mk el.tagName el.className el.attributes el.backgroundColor (some v) el.children el.listeners

/-- The call `el.appendChild(child)`. -/
def appendChild (el : Element) (child : Element) : Element :=
  mk el.tagName el.className el.attributes el.backgroundColor el.textContent
    (el.children ++ [child]) el.listeners

/-- The call `el.addEventListener(type, listener)`. -/
def addEventListener (el : Element) (type : String) (fn : Listener) : Element :=
  mk el.tagName el.className el.attributes el.backgroundColor el.textContent el.children
    (el.listeners ++ [(type, fn)])

end Element

/-- The element `#paletteContainer`: its content and its `style.gridTemplateColumns`. -/
structure Container where
  children : List Element
  gridTemplateColumns : String

/-- The callback of `palette.forEach` up to `container.appendChild`: the card
built for one `item`. -/
def colorCard (item : ColorEntry) : Element :=
  let colorCard := Element.create "article"
  let colorCard := colorCard.setClassName "color-card"
  let colorCard := colorCard.setAttribute "role" "button"
  let colorCard := colorCard.setAttribute "tabindex" "0"
  let colorCard := colorCard.setAttribute "aria-label"
    ("Color " ++ item.code.toStr ++ ". Click para copiar")
  let colorDisplay := Element.create "div"
  let colorDisplay := colorDisplay.setClassName "color-display"
  let colorDisplay := colorDisplay.setBackgroundColor item.color
  let colorInfo := Element.create "div"
  let colorInfo := colorInfo.setClassName "color-info"
  let colorCode := Element.create "div"
  let colorCode := colorCode.setClassName "color-code"
  let colorCode := colorCode.setTextContent item.code
  let colorHint := Element.create "div"
  let colorHint := colorHint.setClassName "color-hint"
  let colorHint := colorHint.setTextContent (.string "Click para copiar")
  let colorInfo := colorInfo.appendChild colorCode
  let colorInfo := colorInfo.appendChild colorHint
  let colorCard := colorCard.appendChild colorDisplay
  let colorCard := colorCard.appendChild colorInfo
  let colorCard := colorCard.addEventListener "click" (.onClick item)
  let colorCard := colorCard.addEventListener "keydown" (.onKeydown item)
  colorCard

/-- The layout branch of `displayPalette`: three exact comparisons of `size`. -/
def adjustGrid (size : Nat) (container : Container) : Container :=
  if size = 6 then { container with gridTemplateColumns := "repeat(3, 1fr)" }
  else if size = 8 then { container with gridTemplateColumns := "repeat(4, 1fr)" }
  else if size = 9 then { container with gridTemplateColumns := "repeat(3, 1fr)" }
  else container

/-- The function `displayPalette(palette)`, acting on the container element. -/
def displayPalette (palette : List ColorEntry) (container : Container) : Container :=
  let container := { container with children := [] }
  let size := palette.length
  let container := adjustGrid size container
  palette.foldl
    (fun c item => { c with children := c.children ++ [colorCard item] })
    container

/-! ## Toast, timers and the clipboard -/

/-- The element `#toast`: its `textContent` and its `classList`. -/
structure Toast where
  textContent : String
  classList : List String
  deriving DecidableEq, Repr

/-- The call `classList.add(token)`: the token is added unless it is already there. -/
def classListAdd (tokens : List String) (token : String) : List String :=
  if token ∈ tokens then tokens else tokens ++ [token]

/-- The call `classList.remove(token)`. -/
def classListRemove (tokens : List String) (token : String) : List String :=
  tokens.filter (fun x => x ≠ token)

/-- The toast is shown while its class list holds `show`. -/
def Toast.visible (toast : Toast) : Bool := decide ("show" ∈ toast.classList)

/-- How a promise returned by `writeText` settles. -/
inductive Settlement where
  | fulfilled : Settlement
  | rejected (reason : String) : Settlement
  deriving DecidableEq, Repr

/-- A `writeText` promise with the reactions `copyToClipboard` chains on it;
both closures capture `text`. -/
structure PendingWrite where
  text : JSValue
  settlement : Settlement
  deriving DecidableEq, Repr

/-- The state the feedback functions act on: the toast, the due times (ms) of
the pending `setTimeout` callbacks, the arguments of the `writeText` calls made
so far, the promises not yet settled, and the `console.error` calls. -/
structure Page where
  toast : Toast
  timers : List Nat
  clipboardWrites : List JSValue
  pending : List PendingWrite
  console : List (List String)
  deriving DecidableEq, Repr

/-- The object `navigator`: `clipboard` is absent (`undefined`) where the
environment offers no clipboard; otherwise `writeText` tells how the promise of
a write of the given text settles. -/
structure Navigator where
  clipboard : Option (String → Settlement)

/-- An exception thrown by the script. -/
inductive JSError where
  | typeError (message : String) : JSError
  deriving DecidableEq, Repr

/-- The function `showToast(message)`, called at time `now` (ms). -/
def showToast (message : String) (now : Nat) (page : Page) : Page :=
  let toast := { page.toast with textContent := message }
  let toast := { toast with classList := classListAdd toast.classList "show" }
  { page with toast := toast, timers := page.timers ++ [now + 2000] }

/-- The callback `showToast` hands to `setTimeout`: `toast.classList.remove('show')`. -/
def hideCallback (page : Page) : Page :=
  { page with toast := { page.toast with classList := classListRemove page.toast.classList "show" } }

/-- The event loop up to time `now`: every pending timer that is due runs its
callback, in registration order, and leaves the pending list. -/
def runTimers (now : Nat) (page : Page) : Page :=
  let due := page.timers.filter (fun t => t ≤ now)
  let page := { page with timers := page.timers.filter (fun t => ¬ t ≤ now) }
  due.foldl (fun p _ => hideCallback p) page

/-- The reaction `.then(() => showToast(...))`. -/
def onFulfilled (text : JSValue) (now : Nat) (page : Page) : Page :=
  showToast ("✓ Copiado: " ++ text.toStr) now page

/-- The reaction `.catch(err => ...)`. -/
def onRejected (err : String) (now : Nat) (page : Page) : Page :=
  let page := showToast "✗ Error al copiar" now page
  { page with console := page.console ++ [["Error al copiar:", err]] }

/-- The function `copyToClipboard(text)` up to its return: the property access
`navigator.clipboard.writeText` throws when `navigator.clipboard` is
`undefined`; otherwise the write is requested and its promise is left pending
with both reactions chained. -/
def copyToClipboard (nav : Navigator) (text : JSValue) (page : Page) : Except JSError Page :=
  match nav.clipboard with
  | none => .error (.typeError "Cannot read properties of undefined (reading 'writeText')")
  | some writeText =>
    .ok { page with
      clipboardWrites := page.clipboardWrites ++ [text]
      pending := page.pending ++ [{ text := text, settlement := writeText text.toStr }] }

/-- The promise job run at time `now` when a pending write settles. -/
def settle (job : PendingWrite) (now : Nat) (page : Page) : Page :=
  let page := { page with pending := page.pending.erase job }
  match job.settlement with
  | .fulfilled => onFulfilled job.text now page
  | .rejected err => onRejected err now page

/-- An event delivered to a card: its type, its `key` and whether
`preventDefault` has been called. -/
structure Event where
  type : String
  key : JSValue
  defaultPrevented : Bool
  deriving DecidableEq, Repr

/-- The bodies of the two listeners of a card. -/
def Listener.run (nav : Navigator) (fn : Listener) (e : Event) (page : Page) :
    Except JSError (Event × Page) :=
  match fn with
  | .onClick item => do
    let page ← copyToClipboard nav item.code page
    pure (e, page)
  | .onKeydown item =>
    if e.key = .string "Enter" ∨ e.key = .string " " then do
      let e := { e with defaultPrevented := true }
      let page ← copyToClipboard nav item.code page
      pure (e, page)
    else pure (e, page)

/-- Delivery of an event to an element: its listeners of that type run in
registration order; the result is the exception a listener lets escape, if any. -/
def dispatchEvent (nav : Navigator) (el : Element) (e : Event) (page : Page) :
    Except JSError (Event × Page) :=
  (el.listeners.filter (fun l => l.1 = e.type)).foldlM
    (fun st l => l.2.run nav st.1 st.2) (e, page)

/-- A click. -/
def clickEvent : Event := { type := "click", key := .undefined, defaultPrevented := false }

/-- A keydown with the given key. -/
def keydownEvent (key : String) : Event :=
  { type := "keydown", key := .string key, defaultPrevented := false }

/-- The scenario of two notifications: `showToast("A")` at time `t`,
`showToast("B")` at time `t + d`, and the event loop run up to time `τ`. -/
def afterTwoToasts (page : Page) (t d τ : Nat) : Page :=
  runTimers τ (showToast "B" (t + d) (runTimers (t + d) (showToast "A" t page)))

/-- A page at rest: the toast hidden, nothing pending. -/
def idlePage : Page :=
  { toast := { textContent := "", classList := ["toast"] }, timers := [],
    clipboardWrites := [], pending := [], console := [] }

/-- A navigator whose clipboard fulfils every write. -/
def grantingNavigator : Navigator := { clipboard := some (fun _ => .fulfilled) }

/-- A navigator without a clipboard (`navigator.clipboard` is `undefined`). -/
def bareNavigator : Navigator := { clipboard := none }

/-- A palette of two hex entries. -/
def samplePalette : List ColorEntry :=
  [{ color := .string "#012345", code := .string "#012345" },
   { color := .string "#6789AB", code := .string "#6789AB" }]

/-- A source cycling through three binary64 draws below 1 whose products with
360, 100 and 100 round to the integers 23, 24 and 99, above the exact products. -/
def boundarySource : RandomSource :=
  { draws := fun k =>
      if k % 3 = 0 then 287729976193115 / 2 ^ 52
      else if k % 3 = 1 then 1080863910568919 / 2 ^ 52
      else 4458563631096791 / 2 ^ 52,
    used := 0 }

/-- A sample source whose `k`-th outcome is `(k mod 16) / 16 + 1 / 32`. -/
def sampleSource : RandomSource :=
  { draws := fun k => ((k % 16 : Nat) : ℚ) / 16 + 1 / 32, used := 0 }

/-! ## Format predicates -/

/-- The string `s` is the decimal rendering of `n` without leading zeros: it is
not empty, holds digits only, denotes `n`, and starts with `0` only when it is `0`. -/
def isDecimalOf (s : String) (n : Nat) : Bool :=
  s.data ≠ [] ∧ s.data.all Char.isDigit ∧
  s.data.foldl (fun acc c => 10 * acc + (c.toNat - '0'.toNat)) 0 = n ∧
  (s.data.head? = some '0' → s.data = ['0'])

/-- The string is `#` followed by six characters of `0-9A-F`. -/
def isHexColor (s : String) : Bool :=
  s.data.length = 7 ∧ s.data.head? = some '#' ∧
  s.data.tail.all (fun c => c ∈ ['0', '1', '2', '3', '4', '5', '6', '7', '8', '9',
    'A', 'B', 'C', 'D', 'E', 'F'])

/-- The string is `hsl(H, S%, L%)` for integers `0 ≤ H < 360` and `0 ≤ S, L < 100`
rendered in decimal without leading zeros. -/
def IsHslColor (s : String) : Prop :=
  ∃ H S L : Nat, H < 360 ∧ S < 100 ∧ L < 100 ∧
    isDecimalOf (toString H) H = true ∧ isDecimalOf (toString S) S = true ∧
    isDecimalOf (toString L) L = true ∧
    s = "hsl(" ++ toString H ++ ", " ++ toString S ++ "%, " ++ toString L ++ "%)"

/-- The sixteen symbols of `letters`. -/
def hexAlphabet : List Char :=
  ['0', '1', '2', '3', '4', '5', '6', '7', '8', '9', 'A', 'B', 'C', 'D', 'E', 'F']

/-- What `generatePalette` maintains for the format `hex`. -/
def HexInv (st : List ColorEntry × RandomSource) : Prop :=
  st.2.InUnit ∧ ∀ e ∈ st.1, e.code = e.color ∧ ∃ s, e.color = .string s ∧ isHexColor s = true

/-- What `generatePalette` maintains for the format `hsl`. -/
def HslInv (st : List ColorEntry × RandomSource) : Prop :=
  st.2.InUnit ∧ st.2.Binary64 ∧ ∀ e ∈ st.1, e.code = e.color ∧ ∃ s, e.color = .string s ∧ IsHslColor s

/-! ## Lemmas on binary64 rounding -/

theorem roundHalfEven_bounds (q : ℚ) :
    ⌊q⌋ ≤ roundHalfEven q ∧ (roundHalfEven q : ℚ) ≤ q + 1 / 2 := by
  have hfl : (⌊q⌋ : ℚ) ≤ q := Int.floor_le q
  unfold roundHalfEven
  split_ifs with h1 h2 h3
  · exact ⟨le_refl _, by linarith⟩
  · refine ⟨by omega, ?_⟩
    push_cast
    linarith
  · exact ⟨le_refl _, by linarith⟩
  · refine ⟨by omega, ?_⟩
    push_cast
    linarith

theorem roundHalfEven_eq (q : ℚ) (k : Int) (h1 : (k : ℚ) - 1 / 2 < q) (h2 : q < k + 1 / 2) :
    roundHalfEven q = k := by
  rcases le_or_lt (k : ℚ) q with hge | hlt
  · have hfl : ⌊q⌋ = k := Int.floor_eq_iff.mpr ⟨hge, by linarith⟩
    unfold roundHalfEven
    rw [hfl, if_pos (by linarith)]
  · have hfl : ⌊q⌋ = k - 1 :=
      Int.floor_eq_iff.mpr ⟨by push_cast; linarith, by push_cast; linarith⟩
    unfold roundHalfEven
    rw [hfl, if_neg (by push_cast; linarith), if_pos (by push_cast; linarith)]
    omega

theorem roundHalfEven_tie (q : ℚ) (k : Int) (hq : q = (k : ℚ) - 1 / 2) (hk : k % 2 = 0) :
    roundHalfEven q = k := by
  have hfl : ⌊q⌋ = k - 1 :=
    Int.floor_eq_iff.mpr ⟨by push_cast; linarith, by push_cast; linarith⟩
  have hfrac : q - ((k - 1 : Int) : ℚ) = 1 / 2 := by
    push_cast
    linarith
  unfold roundHalfEven
  rw [hfl, hfrac, if_neg (lt_irrefl _), if_neg (lt_irrefl _), if_neg (by omega)]
  omega

theorem unitLastPlace_pos (x : ℚ) : 0 < unitLastPlace x := by
  unfold unitLastPlace
  positivity

theorem unitLastPlace_le (x : ℚ) (n : Int) (h0 : 0 < x) (h1 : x < (2 : ℚ) ^ (n + 1))
    (hn : -1022 ≤ n) : unitLastPlace x ≤ (2 : ℚ) ^ (n - 52) := by
  have habs : |x| = x := abs_of_pos h0
  have hlog : Int.log 2 x < n + 1 :=
    (Int.lt_zpow_iff_log_lt (by norm_num) h0).mp (by exact_mod_cast h1)
  have he : binadeExponent x ≤ n := by
    unfold binadeExponent
    rw [habs]
    exact max_le (by omega) hn
  unfold unitLastPlace
  exact zpow_le_zpow_right₀ (by norm_num) (by omega)

theorem roundBinary64_zero : roundBinary64 0 = 0 := by
  simp [roundBinary64, roundHalfEven]

theorem roundBinary64_nonneg (x : ℚ) (h0 : 0 ≤ x) : 0 ≤ roundBinary64 x := by
  have hu := unitLastPlace_pos x
  have hq : 0 ≤ x / unitLastPlace x := div_nonneg h0 hu.le
  have hk : 0 ≤ roundHalfEven (x / unitLastPlace x) :=
    le_trans (Int.floor_nonneg.mpr hq) (roundHalfEven_bounds _).1
  unfold roundBinary64
  exact mul_nonneg (by exact_mod_cast hk) hu.le

theorem roundBinary64_le (x : ℚ) (n : Int) (h0 : 0 ≤ x) (h1 : x < (2 : ℚ) ^ (n + 1))
    (hn : -1022 ≤ n) : roundBinary64 x ≤ x + (2 : ℚ) ^ (n - 52) / 2 := by
  rcases eq_or_lt_of_le h0 with hz | hpos
  · rw [← hz, roundBinary64_zero]
    positivity
  · have hu := unitLastPlace_pos x
    have hule := unitLastPlace_le x n hpos h1 hn
    have hk := (roundHalfEven_bounds (x / unitLastPlace x)).2
    unfold roundBinary64
    calc (roundHalfEven (x / unitLastPlace x) : ℚ) * unitLastPlace x
        ≤ (x / unitLastPlace x + 1 / 2) * unitLastPlace x :=
          mul_le_mul_of_nonneg_right hk hu.le
      _ = x + unitLastPlace x / 2 := by
          field_simp
          ring
      _ ≤ x + (2 : ℚ) ^ (n - 52) / 2 := by linarith

theorem roundBinary64_eq (x : ℚ) (e k : Int) (h1 : (2 : ℚ) ^ e ≤ x) (h2 : x < (2 : ℚ) ^ (e + 1))
    (he : -1022 ≤ e) (hk : roundHalfEven (x / (2 : ℚ) ^ (e - 52)) = k) :
    roundBinary64 x = (k : ℚ) * (2 : ℚ) ^ (e - 52) := by
  have hpos : 0 < x := lt_of_lt_of_le (by positivity) h1
  have hlog : Int.log 2 x = e := by
    have ha : e ≤ Int.log 2 x :=
      (Int.zpow_le_iff_le_log (by norm_num) hpos).mp (by exact_mod_cast h1)
    have hb : Int.log 2 x < e + 1 :=
      (Int.lt_zpow_iff_log_lt (by norm_num) hpos).mp (by exact_mod_cast h2)
    omega
  have hu : unitLastPlace x = (2 : ℚ) ^ (e - 52) := by
    unfold unitLastPlace binadeExponent
    rw [abs_of_pos hpos, hlog, max_eq_left he]
  unfold roundBinary64
  rw [hu, hk]

theorem roundHalfEven_intCast (k : Int) : roundHalfEven (k : ℚ) = k :=
  roundHalfEven_eq _ k (by linarith) (by linarith)

/-- The binary64 product of a non-negative binary64 value by 16 is the exact
product: scaling by a power of two rounds nothing (below the overflow range). -/
theorem mulBinary64_sixteen (r : ℚ) (hb : isBinary64 r = true) (h0 : 0 ≤ r) :
    mulBinary64 r 16 = r * 16 := by
  rcases eq_or_lt_of_le h0 with hz | hpos
  · rw [← hz]
    simp [mulBinary64, roundBinary64_zero]
  have hb2 : roundBinary64 r = r := (of_decide_eq_true hb).2
  have hpos16 : 0 < r * 16 := by positivity
  have hlog : Int.log 2 (r * 16) = Int.log 2 r + 4 := by
    have a1 := Int.zpow_log_le_self (b := 2) (by norm_num) hpos
    have a2 := Int.lt_zpow_succ_log_self (b := 2) (by norm_num) r
    have ha : Int.log 2 r + 4 ≤ Int.log 2 (r * 16) := by
      apply (Int.zpow_le_iff_le_log (by norm_num) hpos16).mp
      rw [zpow_add₀ (by norm_num)]
      have : ((2 : ℕ) : ℚ) ^ (4 : Int) = 16 := by norm_num
      rw [this]
      exact mul_le_mul_of_nonneg_right a1 (by norm_num)
    have hb : Int.log 2 (r * 16) < Int.log 2 r + 4 + 1 := by
      apply (Int.lt_zpow_iff_log_lt (by norm_num) hpos16).mp
      have e : Int.log 2 r + 4 + 1 = (Int.log 2 r + 1) + 4 := by ring
      rw [e, zpow_add₀ (by norm_num)]
      have : ((2 : ℕ) : ℚ) ^ (4 : Int) = 16 := by norm_num
      rw [this]
      exact mul_lt_mul_of_pos_right a2 (by norm_num)
    omega
  obtain ⟨d, hd⟩ : ∃ d : Nat, binadeExponent r + 4 = binadeExponent (r * 16) + d := by
    refine ⟨(binadeExponent r + 4 - binadeExponent (r * 16)).toNat, ?_⟩
    unfold binadeExponent
    rw [abs_of_pos hpos, abs_of_pos hpos16, hlog]
    omega
  have hu : unitLastPlace r * 16 = unitLastPlace (r * 16) * 2 ^ d := by
    unfold unitLastPlace
    have e1 : binadeExponent r - 52 = (binadeExponent (r * 16) - 52) + (d : Int) - 4 := by omega
    rw [e1, zpow_sub₀ (by norm_num), zpow_add₀ (by norm_num), zpow_natCast]
    norm_num
  have hup := unitLastPlace_pos (r * 16)
  set k := roundHalfEven (r / unitLastPlace r) with hk
  have hr : r = (k : ℚ) * unitLastPlace r := by
    conv_lhs => rw [← hb2]
    rfl
  have hq : r * 16 / unitLastPlace (r * 16) = ((k * 2 ^ d : Int) : ℚ) := by
    rw [div_eq_iff hup.ne']
    push_cast
    calc r * 16 = (k : ℚ) * (unitLastPlace r * 16) := by
          conv_lhs => rw [hr]
          ring
      _ = (k : ℚ) * 2 ^ d * unitLastPlace (r * 16) := by
          rw [hu]
          ring
  unfold mulBinary64
  have : roundBinary64 (r * 16) = ((k * 2 ^ d : Int) : ℚ) * unitLastPlace (r * 16) := by
    conv_lhs => unfold roundBinary64
    rw [hq, roundHalfEven_intCast]
  rw [this, ← hq]
  field_simp

/-- The index `generateRandomHEX` computes with the exact product is the one
the binary64 product gives. -/
theorem floor_mulBinary64_sixteen (src : RandomSource) (h : src.InUnit) (hb : src.Binary64)
    (k : Nat) :
    mathFloor (mulBinary64 (src.draws k) 16) = mathFloor (src.draws k * 16) := by
  rw [mulBinary64_sixteen _ (hb k) (h k).1]

/-- The largest binary64 value below 1 is `1 - 2 ^ (-53)`. -/
theorem binary64_lt_one (x : ℚ) (hb : isBinary64 x = true) (h1 : x < 1) :
    x ≤ 1 - 1 / 2 ^ 53 := by
  by_contra hgt
  push_neg at hgt
  have hb2 : roundBinary64 x = x := by
    have := of_decide_eq_true hb
    exact this.2
  have hhalf : (1 : ℚ) / 2 ≤ x := by
    have : (1 : ℚ) / 2 ≤ 1 - 1 / 2 ^ 53 := by norm_num
    linarith
  have hpos : 0 < x := by linarith
  have hlog : Int.log 2 x = -1 := by
    have ha : -1 ≤ Int.log 2 x :=
      (Int.zpow_le_iff_le_log (by norm_num) hpos).mp (by
        norm_num
        linarith)
    have hb : Int.log 2 x < 0 :=
      (Int.lt_zpow_iff_log_lt (by norm_num) hpos).mp (by simpa using h1)
    omega
  have hu : unitLastPlace x = 1 / 2 ^ 53 := by
    unfold unitLastPlace binadeExponent
    rw [abs_of_pos hpos, hlog]
    norm_num
  unfold roundBinary64 at hb2
  rw [hu] at hb2
  set k := roundHalfEven (x / (1 / 2 ^ 53)) with hk
  have hx : x = (k : ℚ) / 2 ^ 53 := by
    rw [← hb2]
    ring
  have hlt : (k : ℚ) < 2 ^ 53 := by
    rw [hx] at h1
    exact (div_lt_one (by positivity : (0 : ℚ) < 2 ^ 53)).mp h1
  have hgt2 : (2 : ℚ) ^ 53 - 1 < k := by
    rw [hx] at hgt
    have h2 : (1 - 1 / 2 ^ 53 : ℚ) = (2 ^ 53 - 1) / 2 ^ 53 := by norm_num
    rw [h2] at hgt
    exact (div_lt_div_iff_of_pos_right (by positivity : (0 : ℚ) < 2 ^ 53)).mp hgt
  have hlt2 : k < 2 ^ 53 := by exact_mod_cast hlt
  have hgt3 : (2 : Int) ^ 53 - 1 < k := by exact_mod_cast hgt2
  omega

theorem floor_mulBinary64_360 (r : ℚ) (hb : isBinary64 r = true) (h0 : 0 ≤ r) (h1 : r < 1) :
    ∃ n : Nat, n < 360 ∧ mathFloor (mulBinary64 r 360) = (n : Int) := by
  have hr := binary64_lt_one r hb h1
  have hx0 : 0 ≤ r * 360 := by positivity
  have hx1 : r * 360 < (2 : ℚ) ^ ((8 : Int) + 1) := by
    norm_num
    linarith
  have hle := roundBinary64_le (r * 360) 8 hx0 hx1 (by norm_num)
  have hnn := roundBinary64_nonneg (r * 360) hx0
  have hlt : mulBinary64 r 360 < 360 := by
    unfold mulBinary64
    have e : (2 : ℚ) ^ ((8 : Int) - 52) / 2 = 1 / 2 ^ 45 := by norm_num
    rw [e] at hle
    have : r * 360 ≤ 360 - 360 / 2 ^ 53 := by linarith
    have : (360 : ℚ) - 360 / 2 ^ 53 + 1 / 2 ^ 45 < 360 := by norm_num
    linarith
  have h3 : 0 ≤ mathFloor (mulBinary64 r 360) := Int.floor_nonneg.mpr hnn
  have h4 : mathFloor (mulBinary64 r 360) < 360 :=
    Int.floor_lt.mpr (by exact_mod_cast hlt)
  exact ⟨(mathFloor (mulBinary64 r 360)).toNat, by omega, by omega⟩

theorem floor_mulBinary64_100 (r : ℚ) (hb : isBinary64 r = true) (h0 : 0 ≤ r) (h1 : r < 1) :
    ∃ n : Nat, n < 100 ∧ mathFloor (mulBinary64 r 100) = (n : Int) := by
  have hr := binary64_lt_one r hb h1
  have hx0 : 0 ≤ r * 100 := by positivity
  have hx1 : r * 100 < (2 : ℚ) ^ ((6 : Int) + 1) := by
    norm_num
    linarith
  have hle := roundBinary64_le (r * 100) 6 hx0 hx1 (by norm_num)
  have hnn := roundBinary64_nonneg (r * 100) hx0
  have hlt : mulBinary64 r 100 < 100 := by
    unfold mulBinary64
    have e : (2 : ℚ) ^ ((6 : Int) - 52) / 2 = 1 / 2 ^ 47 := by norm_num
    rw [e] at hle
    have : r * 100 ≤ 100 - 100 / 2 ^ 53 := by linarith
    have : (100 : ℚ) - 100 / 2 ^ 53 + 1 / 2 ^ 47 < 100 := by norm_num
    linarith
  have h3 : 0 ≤ mathFloor (mulBinary64 r 100) := Int.floor_nonneg.mpr hnn
  have h4 : mathFloor (mulBinary64 r 100) < 100 :=
    Int.floor_lt.mpr (by exact_mod_cast hlt)
  exact ⟨(mathFloor (mulBinary64 r 100)).toNat, by omega, by omega⟩

theorem boundarySource_inUnit : boundarySource.InUnit := by
  intro k
  show 0 ≤ (if k % 3 = 0 then (287729976193115 / 2 ^ 52 : ℚ)
      else if k % 3 = 1 then 1080863910568919 / 2 ^ 52 else 4458563631096791 / 2 ^ 52) ∧
    (if k % 3 = 0 then (287729976193115 / 2 ^ 52 : ℚ)
      else if k % 3 = 1 then 1080863910568919 / 2 ^ 52 else 4458563631096791 / 2 ^ 52) < 1
  split_ifs <;> norm_num

theorem boundarySource_binary64 : boundarySource.Binary64 := by
  intro k
  show isBinary64 (if k % 3 = 0 then (287729976193115 / 2 ^ 52 : ℚ)
      else if k % 3 = 1 then 1080863910568919 / 2 ^ 52 else 4458563631096791 / 2 ^ 52) = true
  simp only [isBinary64, decide_eq_true_eq]
  split_ifs
  · refine ⟨by rw [abs_of_pos (by norm_num)]; norm_num, ?_⟩
    rw [roundBinary64_eq _ (-4) (287729976193115 * 16) (by norm_num) (by norm_num)
      (by norm_num) (roundHalfEven_eq _ _ (by norm_num) (by norm_num))]
    norm_num
  · refine ⟨by rw [abs_of_pos (by norm_num)]; norm_num, ?_⟩
    rw [roundBinary64_eq _ (-3) (1080863910568919 * 8) (by norm_num) (by norm_num)
      (by norm_num) (roundHalfEven_eq _ _ (by norm_num) (by norm_num))]
    norm_num
  · refine ⟨by rw [abs_of_pos (by norm_num)]; norm_num, ?_⟩
    rw [roundBinary64_eq _ (-1) (4458563631096791 * 2) (by norm_num) (by norm_num)
      (by norm_num) (roundHalfEven_eq _ _ (by norm_num) (by norm_num))]
    norm_num

/-- At the boundary draws the rounded products are the integers 23, 24 and 99
(the exact products lie just below them), so the string is `hsl(23, 24%, 99%)`. -/
theorem generateRandomHSL_boundarySource :
    (generateRandomHSL boundarySource).1 = "hsl(23, 24%, 99%)" := by
  have e1 : mulBinary64 (287729976193115 / 2 ^ 52) 360 = 23 := by
    unfold mulBinary64
    rw [roundBinary64_eq _ 4 (23 * 2 ^ 48) (by norm_num) (by norm_num) (by norm_num)
      (roundHalfEven_tie _ _ (by norm_num) (by norm_num))]
    norm_num
  have e2 : mulBinary64 (1080863910568919 / 2 ^ 52) 100 = 24 := by
    unfold mulBinary64
    rw [roundBinary64_eq _ 4 (24 * 2 ^ 48) (by norm_num) (by norm_num) (by norm_num)
      (roundHalfEven_eq _ _ (by norm_num) (by norm_num))]
    norm_num
  have e3 : mulBinary64 (4458563631096791 / 2 ^ 52) 100 = 99 := by
    unfold mulBinary64
    rw [roundBinary64_eq _ 6 (99 * 2 ^ 46) (by norm_num) (by norm_num) (by norm_num)
      (roundHalfEven_eq _ _ (by norm_num) (by norm_num))]
    norm_num
  have f1 : mathFloor 23 = 23 := by simp [mathFloor]
  have f2 : mathFloor 24 = 24 := by simp [mathFloor]
  have f3 : mathFloor 99 = 99 := by simp [mathFloor]
  have d1 : boundarySource.draws 0 = 287729976193115 / 2 ^ 52 := rfl
  have d2 : boundarySource.draws 1 = 1080863910568919 / 2 ^ 52 := rfl
  have d3 : boundarySource.draws 2 = 4458563631096791 / 2 ^ 52 := rfl
  show "hsl(" ++ toString (mathFloor (mulBinary64 (boundarySource.draws 0) 360)) ++ ", "
    ++ toString (mathFloor (mulBinary64 (boundarySource.draws 1) 100)) ++ "%, "
    ++ toString (mathFloor (mulBinary64 (boundarySource.draws 2) 100)) ++ "%)"
    = "hsl(23, 24%, 99%)"
  rw [d1, d2, d3, e1, e2, e3, f1, f2, f3]
  rfl

/-! ## Lemmas on the generators -/

theorem floor_scaled (r : ℚ) (m : Nat) (hm : 0 < m) (h0 : 0 ≤ r) (h1 : r < 1) :
    ∃ n : Nat, n < m ∧ mathFloor (r * m) = (n : Int) := by
  have hp : (0 : ℚ) < (m : ℚ) := Nat.cast_pos.mpr hm
  have hnn : 0 ≤ mathFloor (r * m) := Int.floor_nonneg.mpr (mul_nonneg h0 hp.le)
  have hlt : mathFloor (r * m) < (m : Int) := by
    apply Int.floor_lt.mpr
    have := mul_lt_mul_of_pos_right h1 hp
    simpa using this
  refine ⟨(mathFloor (r * m)).toNat, ?_, ?_⟩
  · omega
  · omega

theorem charAt_letters (n : Nat) (hn : n < 16) :
    ∃ c, c ∈ hexAlphabet ∧ charAt letters (n : Int) = .string (String.singleton c) := by
  interval_cases n <;> simp [charAt, letters, hexAlphabet]

theorem hexStep_spec (s : String) (src : RandomSource) (h : src.InUnit) :
    ∃ c, c ∈ hexAlphabet ∧
      charAt letters (mathFloor (src.draws src.used * 16)) = .string (String.singleton c) ∧
      hexStep (s, src) = (s ++ String.singleton c, { src with used := src.used + 1 }) := by
  obtain ⟨n, hn, hfl⟩ := floor_scaled (src.draws src.used) 16 (by norm_num) (h _).1 (h _).2
  have hfl2 : mathFloor (src.draws src.used * 16) = (n : Int) := by
    simpa using hfl
  obtain ⟨c, hc, hch⟩ := charAt_letters n hn
  refine ⟨c, hc, ?_, ?_⟩
  · rw [hfl2, hch]
  · simp [hexStep, mathRandom, hfl2, hch, JSValue.toStr]

theorem forLoop_hexStep (n : Nat) (s : String) (src : RandomSource) (h : src.InUnit) :
    ∃ cs : List Char, cs.length = n ∧ (∀ c ∈ cs, c ∈ hexAlphabet) ∧
      (∀ i, i < n → ∃ c, cs.get? i = some c ∧
        charAt letters (mathFloor (src.draws (src.used + i) * 16))
          = .string (String.singleton c)) ∧
      forLoop n hexStep (s, src) = (s ++ String.mk cs, { src with used := src.used + n }) := by
  induction n generalizing s src with
  | zero =>
    refine ⟨[], rfl, by simp, by simp, ?_⟩
    simp [forLoop]
  | succ k ih =>
    obtain ⟨c, hc, hch, hstep⟩ := hexStep_spec s src h
    have h2 : RandomSource.InUnit { src with used := src.used + 1 } := h
    obtain ⟨cs, hlen, hmem, hidx, hloop⟩ := ih (s ++ String.singleton c) _ h2
    refine ⟨c :: cs, by simp [hlen], ?_, ?_, ?_⟩
    · intro x hx
      rcases List.mem_cons.mp hx with rfl | hx
      · exact hc
      · exact hmem x hx
    · intro i hi
      cases i with
      | zero => exact ⟨c, by simp, by simpa using hch⟩
      | succ j =>
        obtain ⟨c2, h1, h2⟩ := hidx j (by omega)
        refine ⟨c2, by simpa using h1, ?_⟩
        have : src.used + (j + 1) = src.used + 1 + j := by omega
        rw [this]
        exact h2
    · rw [forLoop, hstep, hloop]
      simp [String.ext_iff, Nat.add_assoc, Nat.add_comm 1 k]

set_option maxRecDepth 100000 in
theorem isDecimalOf_toString : ∀ n, n < 360 → isDecimalOf (toString n) n = true := by
  decide

theorem generateRandomHSL_eq (src : RandomSource) (h : src.InUnit) (hb : src.Binary64) :
    ∃ H S L : Nat, H < 360 ∧ S < 100 ∧ L < 100 ∧
      mathFloor (mulBinary64 (src.draws src.used) 360) = (H : Int) ∧
      mathFloor (mulBinary64 (src.draws (src.used + 1)) 100) = (S : Int) ∧
      mathFloor (mulBinary64 (src.draws (src.used + 2)) 100) = (L : Int) ∧
      generateRandomHSL src =
        ("hsl(" ++ toString H ++ ", " ++ toString S ++ "%, " ++ toString L ++ "%)",
          { src with used := src.used + 3 }) := by
  obtain ⟨H, hH, eH⟩ := floor_mulBinary64_360 (src.draws src.used) (hb _) (h _).1 (h _).2
  obtain ⟨S, hS, eS⟩ := floor_mulBinary64_100 (src.draws (src.used + 1)) (hb _)
    (h _).1 (h _).2
  obtain ⟨L, hL, eL⟩ := floor_mulBinary64_100 (src.draws (src.used + 2)) (hb _)
    (h _).1 (h _).2
  refine ⟨H, S, L, hH, hS, hL, eH, eS, eL, ?_⟩
  have e1 : toString (H : Int) = toString H := rfl
  have e2 : toString (S : Int) = toString S := rfl
  have e3 : toString (L : Int) = toString L := rfl
  simp only [generateRandomHSL, mathRandom, eH, eS, eL, e1, e2, e3]

theorem generateRandomHEX_eq (src : RandomSource) (h : src.InUnit) :
    ∃ cs : List Char, cs.length = 6 ∧ (∀ c ∈ cs, c ∈ hexAlphabet) ∧
      generateRandomHEX src = ("#" ++ String.mk cs, { src with used := src.used + 6 }) := by
  obtain ⟨cs, hlen, hmem, -, hloop⟩ := forLoop_hexStep 6 "#" src h
  exact ⟨cs, hlen, hmem, hloop⟩

theorem sampleSource_inUnit : sampleSource.InUnit := by
  intro k
  have hk : (k % 16 : Nat) ≤ 15 := by omega
  have hq : (((k % 16 : Nat) : ℚ)) ≤ 15 := by exact_mod_cast hk
  have h0 : (0 : ℚ) ≤ ((k % 16 : Nat) : ℚ) := Nat.cast_nonneg _
  constructor
  · show (0 : ℚ) ≤ ((k % 16 : Nat) : ℚ) / 16 + 1 / 32
    positivity
  · show ((k % 16 : Nat) : ℚ) / 16 + 1 / 32 < 1
    linarith

/-! ## Lemmas on the palette builder -/

theorem forLoop_invariant {σ : Type} (P : σ → Prop) (body : σ → σ)
    (hbody : ∀ s, P s → P (body s)) (n : Nat) (s : σ) (hs : P s) :
    P (forLoop n body s) := by
  induction n generalizing s with
  | zero => exact hs
  | succ k ih => exact ih (body s) (hbody s hs)

theorem paletteStep_length (format : JSValue) (st : List ColorEntry × RandomSource) :
    (paletteStep format st).1.length = st.1.length + 1 := by
  unfold paletteStep
  split_ifs <;> simp

theorem forLoop_paletteStep_length (format : JSValue) (n : Nat)
    (st : List ColorEntry × RandomSource) :
    (forLoop n (paletteStep format) st).1.length = st.1.length + n := by
  induction n generalizing st with
  | zero => rfl
  | succ k ih =>
    rw [forLoop, ih, paletteStep_length]
    omega

theorem paletteStep_other (format : JSValue) (h1 : format ≠ .string "hex")
    (h2 : format ≠ .string "hsl") (st : List ColorEntry × RandomSource) :
    paletteStep format st = (st.1 ++ [{ color := .undefined, code := .undefined }], st.2) := by
  simp [paletteStep, h1, h2]

theorem forLoop_paletteStep_other (format : JSValue) (h1 : format ≠ .string "hex")
    (h2 : format ≠ .string "hsl") (n : Nat) (st : List ColorEntry × RandomSource) :
    forLoop n (paletteStep format) st =
      (st.1 ++ List.replicate n { color := .undefined, code := .undefined }, st.2) := by
  induction n generalizing st with
  | zero => simp [forLoop]
  | succ k ih =>
    rw [forLoop, ih, paletteStep_other format h1 h2]
    simp [List.replicate_succ]

theorem isHexColor_of_eq (cs : List Char) (hlen : cs.length = 6)
    (hmem : ∀ c ∈ cs, c ∈ hexAlphabet) : isHexColor ("#" ++ String.mk cs) = true := by
  have hd : ("#" ++ String.mk cs).data = '#' :: cs := by
    rw [String.data_append]
    rfl
  simp only [isHexColor, hd, List.length_cons, hlen, List.head?_cons, List.tail_cons,
    decide_eq_true_eq, Bool.decide_and, Bool.and_eq_true, List.all_eq_true, true_and]
  intro c hc
  exact hmem c hc

theorem not_hsl_of_hex (s : String) (h : isHexColor s = true) : ¬ IsHslColor s := by
  rintro ⟨H, S, L, -, -, -, -, -, -, rfl⟩
  have hd : ("hsl(" ++ toString H ++ ", " ++ toString S ++ "%, " ++ toString L ++ "%)").data
      = 'h' :: ('s' :: 'l' :: '(' :: (toString H).data ++ ((", " : String) ++ toString S ++ "%, "
        ++ toString L ++ "%)").data) := by
    simp only [String.data_append, String.append_assoc]
    rfl
  simp only [isHexColor, hd, List.head?_cons, decide_eq_true_eq, Bool.decide_and,
    Bool.and_eq_true] at h
  exact absurd h.2.1 (by decide)

theorem paletteStep_hex (st : List ColorEntry × RandomSource) (h : HexInv st) :
    HexInv (paletteStep (.string "hex") st) := by
  obtain ⟨hu, hall⟩ := h
  obtain ⟨cs, hlen, hmem, hres⟩ := generateRandomHEX_eq st.2 hu
  have hstep : paletteStep (.string "hex") st =
      (st.1 ++ [{ color := .string ("#" ++ String.mk cs), code := .string ("#" ++ String.mk cs) }],
        { st.2 with used := st.2.used + 6 }) := by
    simp [paletteStep, hres]
  rw [hstep]
  refine ⟨hu, ?_⟩
  intro e he
  rcases List.mem_append.mp he with he | he
  · exact hall e he
  · rw [List.mem_singleton] at he
    subst he
    exact ⟨rfl, _, rfl, isHexColor_of_eq cs hlen hmem⟩

theorem paletteStep_hsl (st : List ColorEntry × RandomSource) (h : HslInv st) :
    HslInv (paletteStep (.string "hsl") st) := by
  obtain ⟨hu, hb, hall⟩ := h
  obtain ⟨H, S, L, hH, hS, hL, -, -, -, hres⟩ := generateRandomHSL_eq st.2 hu hb
  have hcol : IsHslColor (generateRandomHSL st.2).1 := by
    rw [hres]
    exact ⟨H, S, L, hH, hS, hL, isDecimalOf_toString H hH,
      isDecimalOf_toString S (by omega), isDecimalOf_toString L (by omega), rfl⟩
  have hsrc : (generateRandomHSL st.2).2.InUnit ∧ (generateRandomHSL st.2).2.Binary64 := by
    rw [hres]
    exact ⟨hu, hb⟩
  have hstep : paletteStep (.string "hsl") st =
      (st.1 ++ [ColorEntry.mk (.string (generateRandomHSL st.2).1)
        (.string (generateRandomHSL st.2).1)], (generateRandomHSL st.2).2) := by
    simp [paletteStep]
  rw [hstep]
  refine ⟨hsrc.1, hsrc.2, ?_⟩
  intro e he
  rcases List.mem_append.mp he with he | he
  · exact hall e he
  · rw [List.mem_singleton] at he
    subst he
    exact ⟨rfl, _, rfl, hcol⟩

/-! ## Lemmas on the renderer -/

theorem foldl_append_card (palette : List ColorEntry) (c : Container) :
    palette.foldl (fun c item => { c with children := c.children ++ [colorCard item] }) c =
      { children := c.children ++ palette.map colorCard,
        gridTemplateColumns := c.gridTemplateColumns } := by
  induction palette generalizing c with
  | nil => simp
  | cons item rest ih => simp [List.foldl_cons, ih]

theorem adjustGrid_children (size : Nat) (c : Container) :
    (adjustGrid size c).children = c.children := by
  unfold adjustGrid
  split_ifs <;> rfl

theorem displayPalette_eq (palette : List ColorEntry) (container : Container) :
    displayPalette palette container =
      { children := palette.map colorCard,
        gridTemplateColumns :=
          (adjustGrid palette.length container).gridTemplateColumns } := by
  unfold displayPalette
  simp only [foldl_append_card]
  have h : (adjustGrid palette.length { container with children := [] }).children = [] :=
    adjustGrid_children _ _
  have h2 : (adjustGrid palette.length { container with children := [] }).gridTemplateColumns
      = (adjustGrid palette.length container).gridTemplateColumns := by
    unfold adjustGrid
    split_ifs <;> rfl
  rw [h, h2]
  simp

/-! ## Lemmas on the toast -/

theorem mem_classListAdd (tokens : List String) (token : String) :
    token ∈ classListAdd tokens token := by
  unfold classListAdd
  split_ifs with h
  · exact h
  · simp

theorem not_mem_classListRemove (tokens : List String) (token : String) :
    token ∉ classListRemove tokens token := by
  simp [classListRemove]

theorem showToast_visible (message : String) (now : Nat) (page : Page) :
    (showToast message now page).toast.visible = true ∧
    (showToast message now page).toast.textContent = message ∧
    (showToast message now page).timers = page.timers ++ [now + 2000] := by
  refine ⟨?_, rfl, rfl⟩
  simp [showToast, Toast.visible, mem_classListAdd]

theorem hideCallback_hidden (page : Page) :
    (hideCallback page).toast.visible = false ∧
    (hideCallback page).toast.textContent = page.toast.textContent ∧
    (hideCallback page).timers = page.timers := by
  refine ⟨?_, rfl, rfl⟩
  simp [hideCallback, Toast.visible, not_mem_classListRemove]

theorem foldl_hideCallback (due : List Nat) (page : Page) :
    (due.foldl (fun p _ => hideCallback p) page).toast.textContent = page.toast.textContent ∧
    (due.foldl (fun p _ => hideCallback p) page).timers = page.timers ∧
    (due = [] → due.foldl (fun p _ => hideCallback p) page = page) ∧
    (due ≠ [] → (due.foldl (fun p _ => hideCallback p) page).toast.visible = false) := by
  induction due generalizing page with
  | nil => simp
  | cons x rest ih =>
    obtain ⟨h1, h2, -, h4⟩ := ih (hideCallback page)
    refine ⟨by simpa using h1, by simpa using h2, by simp, ?_⟩
    intro _
    rcases rest with _ | ⟨y, ys⟩
    · simpa using (hideCallback_hidden page).1
    · simpa using h4 (by simp)

theorem runTimers_spec (now : Nat) (page : Page) :
    (runTimers now page).toast.textContent = page.toast.textContent ∧
    (runTimers now page).timers = page.timers.filter (fun t => ¬ t ≤ now) ∧
    ((∀ t ∈ page.timers, now < t) → (runTimers now page).toast = page.toast) ∧
    ((∃ t ∈ page.timers, t ≤ now) → (runTimers now page).toast.visible = false) := by
  obtain ⟨h1, h2, h3, h4⟩ := foldl_hideCallback (page.timers.filter (fun t => t ≤ now))
    { page with timers := page.timers.filter (fun t => ¬ t ≤ now) }
  refine ⟨h1, h2, ?_, ?_⟩
  · intro hall
    have hnil : page.timers.filter (fun t => t ≤ now) = [] := by
      rw [List.filter_eq_nil_iff]
      intro t ht
      have := hall t ht
      simp
      omega
    have := h3 hnil
    unfold runTimers
    simp only [this]
  · rintro ⟨t, ht, hle⟩
    apply h4
    intro hnil
    rw [List.filter_eq_nil_iff] at hnil
    exact hnil t ht (by simpa using hle)

/-! ## Lemmas on activation -/

theorem colorCard_listeners (item : ColorEntry) :
    (colorCard item).listeners = [("click", .onClick item), ("keydown", .onKeydown item)] :=
  rfl

theorem dispatch_click (nav : Navigator) (item : ColorEntry) (page : Page) :
    dispatchEvent nav (colorCard item) clickEvent page =
      (copyToClipboard nav item.code page).map (fun p => (clickEvent, p)) := by
  simp only [dispatchEvent, colorCard_listeners, clickEvent]
  simp [List.filter, Listener.run]
  cases copyToClipboard nav item.code page <;> rfl

theorem dispatch_keydown (nav : Navigator) (item : ColorEntry) (key : String) (page : Page) :
    dispatchEvent nav (colorCard item) (keydownEvent key) page =
      if key = "Enter" ∨ key = " " then
        (copyToClipboard nav item.code page).map
          (fun p => ({ keydownEvent key with defaultPrevented := true }, p))
      else .ok (keydownEvent key, page) := by
  simp only [dispatchEvent, colorCard_listeners, keydownEvent]
  simp [List.filter, Listener.run]
  split_ifs
  · cases copyToClipboard nav item.code page <;> rfl
  · rfl

/-! ## Claims on the generators -/

/-- C1: for every outcome of the random source with all draws in `[0, 1)`,
`generateRandomHEX` returns a string of exactly 7 characters, the first being
`#` and each of the other six one of `0123456789ABCDEF`; each index
`floor(r * 16)` lies in `0 .. 15`, so `letters[...]` is never `undefined`, and
the `i`-th digit is the letter selected by the `i`-th draw. -/
theorem generateRandomHEX_format (src : RandomSource) (h : src.InUnit) :
    (generateRandomHEX src).1.length = 7 ∧
    (generateRandomHEX src).1.data.get? 0 = some '#' ∧
    (∀ i, 1 ≤ i → i < 7 → ∃ c, (generateRandomHEX src).1.data.get? i = some c ∧
      c ∈ ['0', '1', '2', '3', '4', '5', '6', '7', '8', '9', 'A', 'B', 'C', 'D', 'E', 'F'] ∧
      charAt letters (mathFloor (src.draws (src.used + (i - 1)) * 16))
        = .string (String.singleton c)) ∧
    (∀ i, i < 6 → 0 ≤ mathFloor (src.draws (src.used + i) * 16) ∧
      mathFloor (src.draws (src.used + i) * 16) < 16 ∧
      charAt letters (mathFloor (src.draws (src.used + i) * 16)) ≠ .undefined) ∧
    (generateRandomHEX src).2 = { src with used := src.used + 6 } := by
  obtain ⟨cs, hlen, hmem, hidx, hloop⟩ := forLoop_hexStep 6 "#" src h
  have hres : generateRandomHEX src = ("#" ++ String.mk cs, { src with used := src.used + 6 }) :=
    hloop
  rw [hres]
  refine ⟨?_, ?_, ?_, ?_, rfl⟩
  · show ("#" ++ String.mk cs).length = 7
    rw [String.length_append]
    show 1 + cs.length = 7
    omega
  · show ("#" ++ String.mk cs).data.get? 0 = some '#'
    rw [String.data_append]
    rfl
  · intro i h1 h7
    obtain ⟨c, hc1, hc2⟩ := hidx (i - 1) (by omega)
    refine ⟨c, ?_, hmem c (List.get?_mem hc1), hc2⟩
    obtain ⟨j, rfl⟩ : ∃ j, i = j + 1 := ⟨i - 1, by omega⟩
    simpa using hc1
  · intro i hi
    obtain ⟨n, hn, hfl⟩ := floor_scaled (src.draws (src.used + i)) 16 (by norm_num)
      (h _).1 (h _).2
    have hfl2 : mathFloor (src.draws (src.used + i) * 16) = (n : Int) := by
      simpa using hfl
    obtain ⟨c, -, hch⟩ := charAt_letters n hn
    rw [hfl2, hch]
    refine ⟨by omega, by omega, by simp⟩

/-- C1 witness: the sample source has all its draws in `[0, 1)` and the
statement holds there. -/
theorem generateRandomHEX_format_witness :
    sampleSource.InUnit ∧ (generateRandomHEX sampleSource).1.length = 7 :=
  ⟨sampleSource_inUnit, (generateRandomHEX_format sampleSource sampleSource_inUnit).1⟩

/-- C2: for every outcome of the random source, each draw a binary64 value in
`[0, 1)`, `generateRandomHSL` returns exactly `hsl(H, S%, L%)` where `H`, `S`,
`L` are the decimal renderings without leading zeros of integers
`0 ≤ H < 360`, `0 ≤ S < 100`, `0 ≤ L < 100` (never 360, never 100), `H` being
the floor of the binary64 product of the first draw by 360, `S` and `L` the
floors of the binary64 products of the second and third draw by 100. -/
theorem generateRandomHSL_format (src : RandomSource) (h : src.InUnit) (hb : src.Binary64) :
    ∃ H S L : Nat, H < 360 ∧ S < 100 ∧ L < 100 ∧
      mathFloor (mulBinary64 (src.draws src.used) 360) = (H : Int) ∧
      mathFloor (mulBinary64 (src.draws (src.used + 1)) 100) = (S : Int) ∧
      mathFloor (mulBinary64 (src.draws (src.used + 2)) 100) = (L : Int) ∧
      isDecimalOf (toString H) H = true ∧ isDecimalOf (toString S) S = true ∧
      isDecimalOf (toString L) L = true ∧
      (generateRandomHSL src).1 =
        "hsl(" ++ toString H ++ ", " ++ toString S ++ "%, " ++ toString L ++ "%)" ∧
      (generateRandomHSL src).2 = { src with used := src.used + 3 } := by
  obtain ⟨H, S, L, hH, hS, hL, eH, eS, eL, hres⟩ := generateRandomHSL_eq src h hb
  refine ⟨H, S, L, hH, hS, hL, eH, eS, eL, isDecimalOf_toString H hH,
    isDecimalOf_toString S (by omega), isDecimalOf_toString L (by omega), ?_, ?_⟩
  · rw [hres]
  · rw [hres]

/-- C2 witness: the statement holds at the boundary source, whose three draws
give `hsl(23, 24%, 99%)`. -/
theorem generateRandomHSL_format_witness :
    boundarySource.InUnit ∧ boundarySource.Binary64 ∧
    (generateRandomHSL boundarySource).1 = "hsl(23, 24%, 99%)" ∧
    ∃ H S L : Nat, H < 360 ∧ S < 100 ∧ L < 100 ∧
      mathFloor (mulBinary64 (boundarySource.draws boundarySource.used) 360) = (H : Int) ∧
      mathFloor (mulBinary64 (boundarySource.draws (boundarySource.used + 1)) 100) = (S : Int) ∧
      mathFloor (mulBinary64 (boundarySource.draws (boundarySource.used + 2)) 100) = (L : Int) ∧
      isDecimalOf (toString H) H = true ∧ isDecimalOf (toString S) S = true ∧
      isDecimalOf (toString L) L = true ∧
      (generateRandomHSL boundarySource).1 =
        "hsl(" ++ toString H ++ ", " ++ toString S ++ "%, " ++ toString L ++ "%)" ∧
      (generateRandomHSL boundarySource).2
        = { boundarySource with used := boundarySource.used + 3 } :=
  ⟨boundarySource_inUnit, boundarySource_binary64, generateRandomHSL_boundarySource,
    generateRandomHSL_format boundarySource boundarySource_inUnit boundarySource_binary64⟩

/-! ## Claims on the palette builder -/

/-- C3: for every non-negative integer `size` and every value of `format`,
`generatePalette(size, format)` returns a sequence of exactly `size` entries;
the builder validates nothing and is total. -/
theorem generatePalette_length (size : Nat) (format : JSValue) (src : RandomSource) :
    (generatePalette size format src).1.length = size := by
  unfold generatePalette
  rw [forLoop_paletteStep_length]
  simp

/-- C4: for every `size`, with the draws in `[0, 1)`, every entry of
`generatePalette(size, 'hex')` has `code` equal to `color`, a string that is
`#` followed by six characters of `0-9A-F` (and is not of the HSL form), and,
the draws being binary64 values, every entry of `generatePalette(size, 'hsl')`
has `code` equal to `color`, a string `hsl(H, S%, L%)` with integers
`0 ≤ H < 360`, `0 ≤ S, L < 100` (and is not of the hex form): no palette mixes
the two formats. -/
theorem generatePalette_entries_valid (size : Nat) (src : RandomSource) (h : src.InUnit) :
    (∀ e ∈ (generatePalette size (.string "hex") src).1,
      e.code = e.color ∧ ∃ s, e.color = .string s ∧ isHexColor s = true ∧ ¬ IsHslColor s) ∧
    (src.Binary64 → ∀ e ∈ (generatePalette size (.string "hsl") src).1,
      e.code = e.color ∧ ∃ s, e.color = .string s ∧ IsHslColor s ∧ isHexColor s = false) := by
  constructor
  · have hinv : HexInv (generatePalette size (.string "hex") src) :=
      forLoop_invariant HexInv _ paletteStep_hex size ([], src) ⟨h, by simp⟩
    intro e he
    obtain ⟨hcode, s, hs, hhex⟩ := hinv.2 e he
    exact ⟨hcode, s, hs, hhex, not_hsl_of_hex s hhex⟩
  · intro hb
    have hinv : HslInv (generatePalette size (.string "hsl") src) :=
      forLoop_invariant HslInv _ paletteStep_hsl size ([], src) ⟨h, hb, by simp⟩
    intro e he
    obtain ⟨hcode, s, hs, hhsl⟩ := hinv.2.2 e he
    refine ⟨hcode, s, hs, hhsl, ?_⟩
    cases hx : isHexColor s with
    | false => rfl
    | true => exact absurd hhsl (not_hsl_of_hex s hx)

/-- C4 witness: the statement holds for six entries drawn from the boundary
source, whose draws are binary64 values in `[0, 1)`. -/
theorem generatePalette_entries_valid_witness :
    boundarySource.InUnit ∧ boundarySource.Binary64 ∧
    (∀ e ∈ (generatePalette 6 (.string "hex") boundarySource).1,
      e.code = e.color ∧ ∃ s, e.color = .string s ∧ isHexColor s = true ∧ ¬ IsHslColor s) ∧
    (∀ e ∈ (generatePalette 6 (.string "hsl") boundarySource).1,
      e.code = e.color ∧ ∃ s, e.color = .string s ∧ IsHslColor s ∧ isHexColor s = false) :=
  ⟨boundarySource_inUnit, boundarySource_binary64,
    (generatePalette_entries_valid 6 boundarySource boundarySource_inUnit).1,
    (generatePalette_entries_valid 6 boundarySource boundarySource_inUnit).2
      boundarySource_binary64⟩

/-- C5: for every `format` other than exactly `'hex'` and exactly `'hsl'` and
every `size`, `generatePalette` returns `size` entries whose `color` and `code`
are both `undefined`, and the random source is left as it was (nothing is
drawn); the function is total, so no error is raised. -/
theorem generatePalette_unrecognized (size : Nat) (format : JSValue) (src : RandomSource)
    (h1 : format ≠ .string "hex") (h2 : format ≠ .string "hsl") :
    (generatePalette size format src).1.length = size ∧
    (∀ e ∈ (generatePalette size format src).1, e.color = .undefined ∧ e.code = .undefined) ∧
    (generatePalette size format src).2 = src := by
  have hres : generatePalette size format src =
      (List.replicate size { color := .undefined, code := .undefined }, src) := by
    unfold generatePalette
    rw [forLoop_paletteStep_other format h1 h2]
    simp
  rw [hres]
  refine ⟨by simp, ?_, rfl⟩
  intro e he
  have := List.eq_of_mem_replicate he
  subst this
  exact ⟨rfl, rfl⟩

/-- C5 witness: the comparison is case-sensitive, so `'HEX'` is unrecognized. -/
theorem generatePalette_unrecognized_witness :
    JSValue.string "HEX" ≠ .string "hex" ∧ JSValue.string "HEX" ≠ .string "hsl" ∧
    (generatePalette 6 (.string "HEX") sampleSource).1.length = 6 ∧
    (∀ e ∈ (generatePalette 6 (.string "HEX") sampleSource).1,
      e.color = .undefined ∧ e.code = .undefined) ∧
    (generatePalette 6 (.string "HEX") sampleSource).2 = sampleSource :=
  ⟨by decide, by decide,
    generatePalette_unrecognized 6 (.string "HEX") sampleSource (by decide) (by decide)⟩

/-! ## Claims on the renderer -/

/-- C6: `displayPalette` sets the column layout of the container from the
palette length by exact match: length 6 gives `repeat(3, 1fr)`, length 8 gives
`repeat(4, 1fr)`, length 9 gives `repeat(3, 1fr)`; for every other length
(0 included) `gridTemplateColumns` keeps the value it had before the call. -/
theorem displayPalette_grid (palette : List ColorEntry) (container : Container) :
    (palette.length = 6 →
      (displayPalette palette container).gridTemplateColumns = "repeat(3, 1fr)") ∧
    (palette.length = 8 →
      (displayPalette palette container).gridTemplateColumns = "repeat(4, 1fr)") ∧
    (palette.length = 9 →
      (displayPalette palette container).gridTemplateColumns = "repeat(3, 1fr)") ∧
    (palette.length ≠ 6 → palette.length ≠ 8 → palette.length ≠ 9 →
      (displayPalette palette container).gridTemplateColumns
        = container.gridTemplateColumns) := by
  rw [displayPalette_eq]
  refine ⟨?_, ?_, ?_, ?_⟩
  · intro h
    simp [adjustGrid, h]
  · intro h
    simp [adjustGrid, h]
  · intro h
    simp [adjustGrid, h]
  · intro h6 h8 h9
    simp [adjustGrid, h6, h8, h9]

/-- C6 witness: a palette of 8 entries over a 3-column container gets 4
columns, and an empty palette leaves the layout as it was. -/
theorem displayPalette_grid_witness :
    (List.replicate 8 (ColorEntry.mk (.string "#012345") (.string "#012345"))).length = 8 ∧
    (displayPalette (List.replicate 8 (ColorEntry.mk (.string "#012345") (.string "#012345")))
      { children := [], gridTemplateColumns := "repeat(3, 1fr)" }).gridTemplateColumns
      = "repeat(4, 1fr)" ∧
    (displayPalette [] { children := [], gridTemplateColumns := "none" }).gridTemplateColumns
      = "none" :=
  ⟨rfl, (displayPalette_grid _ _).2.1 rfl,
    (displayPalette_grid [] _).2.2.2 (by decide) (by decide) (by decide)⟩

/-- C7: for every palette and every prior content of the container, after
`displayPalette(palette)` the container holds exactly `palette.length` cards,
the `i`-th being the card built from the `i`-th entry: an `article` whose
swatch is painted with the entry's `color`, whose label text is the entry's
`code` and whose `aria-label` embeds the `code`; the content does not depend on
what the container held before, and two palettes of equal length in
`{6, 8, 9}` give the same column layout and the same number of cards. -/
theorem displayPalette_cards (palette : List ColorEntry) (container : Container) :
    (displayPalette palette container).children.length = palette.length ∧
    (displayPalette palette container).children = palette.map colorCard ∧
    (∀ i item, palette.get? i = some item →
      ∃ card swatch info label hint,
        (displayPalette palette container).children.get? i = some card ∧
        card.tagName = "article" ∧
        card.children = [swatch, info] ∧ info.children = [label, hint] ∧
        swatch.className = "color-display" ∧ swatch.backgroundColor = some item.color ∧
        label.className = "color-code" ∧ label.textContent = some item.code ∧
        card.getAttribute "aria-label"
          = some ("Color " ++ item.code.toStr ++ ". Click para copiar")) ∧
    (∀ other : Container,
      (displayPalette palette other).children = (displayPalette palette container).children) ∧
    (∀ (palette2 : List ColorEntry) (container2 : Container),
      palette2.length = palette.length →
      palette.length = 6 ∨ palette.length = 8 ∨ palette.length = 9 →
      (displayPalette palette2 container2).gridTemplateColumns
        = (displayPalette palette container).gridTemplateColumns ∧
      (displayPalette palette2 container2).children.length
        = (displayPalette palette container).children.length) := by
  refine ⟨by simp [displayPalette_eq], by simp [displayPalette_eq], ?_, ?_, ?_⟩
  · intro i item hi
    refine ⟨colorCard item, _, _, _, _, ?_, rfl, rfl, rfl, rfl, rfl, rfl, rfl, ?_⟩
    · have hi2 : palette[i]? = some item := by simpa using hi
      simp [displayPalette_eq, List.getElem?_map, hi2]
    · simp [colorCard, Element.getAttribute, Element.setAttribute, Element.attributes,
        Element.create, Element.addEventListener, Element.appendChild, Element.setClassName]
  · intro other
    simp [displayPalette_eq]
  · intro palette2 container2 hlen hsize
    simp only [displayPalette_eq, List.length_map, hlen, and_true]
    rcases hsize with h | h | h <;> simp [adjustGrid, h]

/-- C7 witness: the sample palette rendered into a container that held one
stale element. -/
theorem displayPalette_cards_witness :
    samplePalette.get? 1 = some { color := .string "#6789AB", code := .string "#6789AB" } ∧
    (displayPalette samplePalette
      { children := [Element.create "p"], gridTemplateColumns := "" }).children.length = 2 ∧
    (displayPalette samplePalette
      { children := [Element.create "p"], gridTemplateColumns := "" }).children
      = samplePalette.map colorCard :=
  ⟨rfl, (displayPalette_cards samplePalette _).1, (displayPalette_cards samplePalette _).2.1⟩

/-! ## Claims on the toast and the clipboard -/

/-- C8 counterexample: from a page at rest, `showToast("A")` at 0 ms and
`showToast("B")` at 1000 ms (so `0 < d < 2000`); at 2000 ms, inside
`[t + d, t + d + 2000) = [1000, 3000)`, the toast is already hidden although
its message is `B`: the timer of the first call hid the newer message. -/
theorem showToast_debounce_counterexample :
    idlePage.timers = [] ∧ 0 < 1000 ∧ 1000 < 2000 ∧
    0 + 1000 ≤ 2000 ∧ 2000 < 0 + 1000 + 2000 ∧
    (afterTwoToasts idlePage 0 1000 2000).toast.textContent = "B" ∧
    (afterTwoToasts idlePage 0 1000 2000).toast.visible = false := by
  decide

/-- C8 (amended): with no timer pending beforehand and `0 < d < 2000`, after
`showToast("A")` at `t` and `showToast("B")` at `t + d` two independent hide
timers are pending, due at `t + 2000` and `t + d + 2000`; the toast shows `B`
throughout `[t + d, t + 2000)`, and from `t + 2000` on it is hidden, still
holding the message `B`: the timer of the first call hides it, and the timer
of the second call, the only one left pending on `[t + 2000, t + d + 2000)`,
finds it hidden. -/
theorem showToast_two_calls (page : Page) (t d τ : Nat) (h0 : page.timers = [])
    (hd : 0 < d) (hd2 : d < 2000) :
    (showToast "B" (t + d) (runTimers (t + d) (showToast "A" t page))).timers
      = [t + 2000, t + d + 2000] ∧
    (t + d ≤ τ → τ < t + 2000 →
      (afterTwoToasts page t d τ).toast.visible = true ∧
      (afterTwoToasts page t d τ).toast.textContent = "B" ∧
      (afterTwoToasts page t d τ).timers = [t + 2000, t + d + 2000]) ∧
    (t + 2000 ≤ τ →
      (afterTwoToasts page t d τ).toast.visible = false ∧
      (afterTwoToasts page t d τ).toast.textContent = "B") ∧
    (t + 2000 ≤ τ → τ < t + d + 2000 →
      (afterTwoToasts page t d τ).timers = [t + d + 2000]) ∧
    (t + d + 2000 ≤ τ → (afterTwoToasts page t d τ).timers = []) := by
  have hA := showToast_visible "A" t page
  have hR := runTimers_spec (t + d) (showToast "A" t page)
  have hB := showToast_visible "B" (t + d) (runTimers (t + d) (showToast "A" t page))
  have htimers : (showToast "B" (t + d) (runTimers (t + d) (showToast "A" t page))).timers
      = [t + 2000, t + d + 2000] := by
    rw [hB.2.2, hR.2.1, hA.2.2, h0]
    have : t + d < t + 2000 := by omega
    simp [this]
  have hT := runTimers_spec τ (showToast "B" (t + d) (runTimers (t + d) (showToast "A" t page)))
  rw [htimers] at hT
  obtain ⟨hT1, hT2, hT3, hT4⟩ := hT
  refine ⟨htimers, ?_, ?_, ?_, ?_⟩
  · intro h1 h2
    have hkeep := hT3 (by
      intro x hx
      simp at hx
      omega)
    refine ⟨?_, ?_, ?_⟩
    · show (runTimers τ _).toast.visible = true
      rw [hkeep]
      exact hB.1
    · show (runTimers τ _).toast.textContent = "B"
      rw [hT1]
      exact hB.2.1
    · show (runTimers τ _).timers = _
      rw [hT2]
      have e2 : τ < t + d + 2000 := by omega
      simp [h2, e2]
  · intro h1
    refine ⟨hT4 ⟨t + 2000, by simp, h1⟩, ?_⟩
    show (runTimers τ _).toast.textContent = "B"
    rw [hT1]
    exact hB.2.1
  · intro h1 h2
    show (runTimers τ _).timers = _
    rw [hT2]
    have e1 : ¬ τ < t + 2000 := by omega
    simp [e1, h2]
  · intro h1
    show (runTimers τ _).timers = _
    rw [hT2]
    have e1 : ¬ τ < t + 2000 := by omega
    have e2 : ¬ τ < t + d + 2000 := by omega
    simp [e1, e2]

/-- C8 (amended) witness: a page at rest, calls at 0 ms and 1000 ms, observed at 1500 ms. -/
theorem showToast_two_calls_witness :
    idlePage.timers = [] ∧ 0 < 1000 ∧ 1000 < 2000 ∧
    (afterTwoToasts idlePage 0 1000 1500).toast.visible = true ∧
    (afterTwoToasts idlePage 0 1000 2500).toast.visible = false :=
  ⟨rfl, by decide, by decide,
    ((showToast_two_calls idlePage 0 1000 1500 rfl (by decide) (by decide)).2.1
      (by decide) (by decide)).1,
    ((showToast_two_calls idlePage 0 1000 2500 rfl (by decide) (by decide)).2.2.1
      (by decide)).1⟩

/-- C9: where the navigator offers a clipboard, for every rendered card (the
`i`-th card of `displayPalette(palette)`, built from the entry `item`), a
click, and a keydown whose key is `Enter` or a space, each make exactly one
`writeText` request, whose argument is `item.code`; the keydown also calls
`preventDefault`; a keydown with any other key requests nothing and prevents
nothing; and when the write is fulfilled the toast shows `✓ Copiado: `
followed by the code. -/
theorem card_activation_copies_code (palette : List ColorEntry) (container : Container)
    (i : Nat) (item : ColorEntry) (nav : Navigator) (writeText : String → Settlement)
    (page : Page) (hi : palette.get? i = some item) (hnav : nav.clipboard = some writeText) :
    ∃ card, (displayPalette palette container).children.get? i = some card ∧
      dispatchEvent nav card clickEvent page =
        .ok (clickEvent, { page with
          clipboardWrites := page.clipboardWrites ++ [item.code]
          pending := page.pending ++
            [{ text := item.code, settlement := writeText item.code.toStr }] }) ∧
      (∀ key, key = "Enter" ∨ key = " " →
        dispatchEvent nav card (keydownEvent key) page =
          .ok ({ keydownEvent key with defaultPrevented := true }, { page with
            clipboardWrites := page.clipboardWrites ++ [item.code]
            pending := page.pending ++
              [{ text := item.code, settlement := writeText item.code.toStr }] })) ∧
      (∀ key, key ≠ "Enter" → key ≠ " " →
        dispatchEvent nav card (keydownEvent key) page = .ok (keydownEvent key, page)) ∧
      (writeText item.code.toStr = .fulfilled →
        ∀ now page2, (settle { text := item.code, settlement := writeText item.code.toStr }
            now page2).toast.textContent = "✓ Copiado: " ++ item.code.toStr ∧
          (settle { text := item.code, settlement := writeText item.code.toStr }
            now page2).toast.visible = true ∧
          ∀ C, item.code = .string C →
            (settle { text := item.code, settlement := writeText item.code.toStr }
              now page2).toast.textContent = "✓ Copiado: " ++ C) := by
  have hi2 : palette[i]? = some item := by simpa using hi
  refine ⟨colorCard item, by simp [displayPalette_eq, List.getElem?_map, hi2], ?_, ?_, ?_, ?_⟩
  · rw [dispatch_click]
    simp [copyToClipboard, hnav, Except.map]
  · intro key hkey
    rw [dispatch_keydown, if_pos hkey]
    simp [copyToClipboard, hnav, Except.map]
  · intro key h1 h2
    rw [dispatch_keydown, if_neg (by simp [h1, h2])]
  · intro hok now page2
    rw [hok]
    have hv := showToast_visible ("✓ Copiado: " ++ item.code.toStr) now
      { page2 with pending := page2.pending.erase { text := item.code, settlement := .fulfilled } }
    refine ⟨hv.2.1, hv.1, ?_⟩
    intro C hC
    have : item.code.toStr = C := by rw [hC]; rfl
    rw [← this]
    exact hv.2.1

/-- C9 witness: the second card of a rendered two-entry palette, a clipboard
that fulfils every write, and a page at rest. -/
theorem card_activation_copies_code_witness :
    samplePalette.get? 1 = some { color := .string "#6789AB", code := .string "#6789AB" } ∧
    grantingNavigator.clipboard = some (fun _ => .fulfilled) ∧
    ∃ card, (displayPalette samplePalette
        { children := [], gridTemplateColumns := "" }).children.get? 1 = some card ∧
      dispatchEvent grantingNavigator card clickEvent idlePage =
        .ok (clickEvent, { idlePage with
          clipboardWrites := [.string "#6789AB"]
          pending := [{ text := .string "#6789AB", settlement := .fulfilled }] }) :=
  ⟨rfl, rfl,
    (card_activation_copies_code samplePalette
      { children := [], gridTemplateColumns := "" } 1
      { color := .string "#6789AB", code := .string "#6789AB" } grantingNavigator
      (fun _ => .fulfilled) idlePage rfl rfl).imp
      (fun _ hc => ⟨hc.1, hc.2.1⟩)⟩

/-- The rejection path of `copyToClipboard`: when the promise of `writeText`
is rejected, nothing is thrown, the reaction shows `✗ Error al copiar`, not a
success message, and logs the reason with `console.error`. -/
theorem copyToClipboard_rejected (nav : Navigator) (writeText : String → Settlement)
    (text : JSValue) (reason : String) (now : Nat) (page : Page)
    (hnav : nav.clipboard = some writeText) (hrej : writeText text.toStr = .rejected reason) :
    copyToClipboard nav text page = .ok { page with
      clipboardWrites := page.clipboardWrites ++ [text]
      pending := page.pending ++ [{ text := text, settlement := .rejected reason }] } ∧
    ∀ page2, (settle { text := text, settlement := .rejected reason } now page2).toast.textContent
        = "✗ Error al copiar" ∧
      (settle { text := text, settlement := .rejected reason } now page2).toast.visible = true ∧
      (settle { text := text, settlement := .rejected reason } now page2).console
        = page2.console ++ [["Error al copiar:", reason]] := by
  refine ⟨by simp [copyToClipboard, hnav, hrej], ?_⟩
  intro page2
  have hv := showToast_visible "✗ Error al copiar" now
    { page2 with pending := page2.pending.erase { text := text, settlement := .rejected reason } }
  exact ⟨hv.2.1, hv.1, rfl⟩

/-- C10 (the code at the failing input): where `navigator.clipboard` is
`undefined`, `copyToClipboard(text)` throws a `TypeError` for every text and
page, before any notification or log: the exception reaches the caller, and
through it the click listener of a card. -/
theorem copyToClipboard_without_clipboard_throws (text : JSValue) (page : Page)
    (item : ColorEntry) :
    copyToClipboard bareNavigator text page =
      .error (.typeError "Cannot read properties of undefined (reading 'writeText')") ∧
    copyToClipboard bareNavigator (.string "#AABBCC") idlePage =
      .error (.typeError "Cannot read properties of undefined (reading 'writeText')") ∧
    dispatchEvent bareNavigator (colorCard item) clickEvent page =
      .error (.typeError "Cannot read properties of undefined (reading 'writeText')") := by
  refine ⟨rfl, rfl, ?_⟩
  rw [dispatch_click]
  rfl

end Paleta
